import Mathlib

/-!
Verification of the slide-extraction core of `clipimgfromvideo`.

The embedding models, from `src/clipimgfromvideo/slide_detector.py`,
`src/clipimgfromvideo/video_processor.py` and `src/main.py`:

* raster images (`Img`) as dimension-tagged pixel functions over ℚ
  (exact-rational idealization of the float/uint8 arithmetic);
* `cv2.cvtColor(BGR2GRAY)`, `cv2.resize` (output dimensions faithful,
  interpolation kernel abstracted to nearest-point sampling),
  `VideoProcessor._preprocess_frame`;
* `skimage.metrics.structural_similarity` with its default parameters
  (uniform 7×7 window, sample covariance, `K1 = 0.01`, `K2 = 0.03`,
  `data_range = 255` for uint8 input), including its dimension-equality
  check and its `win_size exceeds image extent` failure on images smaller
  than 7×7;
* `SlideDetector.is_new_slide` and the frame loop of
  `VideoProcessor.extract_slides`, with Python exceptions made explicit
  (`ZeroDivisionError` from `frame_count % frame_skip` when
  `frame_skip = 0`; scorer errors propagate out of the loop);
* `VideoProcessor.save_slide` and the save loop of `main.process_video`,
  with the filesystem abstracted as a path → success-flag oracle.

A video is modelled as the list of its successfully decoded frames, in
decode order (`cap.read` returning `ret = False`, at end of stream or on a
mid-stream decode failure, simply ends the list).
-/

set_option maxRecDepth 4000

/-- A raster image: channel count (1 = grayscale, 3 = BGR), height, width,
and a total pixel function `px channel row col`.  Pixels of decoded video
frames are uint8 values `0..255`; the embedding computes over ℚ. -/
structure Img where
  channels : Nat
  h : Nat
  w : Nat
  px : Nat → Nat → Nat → ℚ

/-- The all-zero 1-channel empty image, used as a default for lookups. -/
def blankImg : Img := ⟨1, 0, 0, fun _ _ _ => 0⟩

/-- A 3-channel (BGR) frame whose three channels share the pixel map `f`. -/
def mkFrame (h w : Nat) (f : Nat → Nat → ℚ) : Img := ⟨3, h, w, fun _ i j => f i j⟩

/-- A single-channel image with pixel map `f`. -/
def mkGray (h w : Nat) (f : Nat → Nat → ℚ) : Img := ⟨1, h, w, fun _ i j => f i j⟩

/-- A solid-color 3-channel frame. -/
def solidFrame (h w : Nat) (v : ℚ) : Img := mkFrame h w (fun _ _ => v)

@[simp] theorem mkFrame_channels (h w f) : (mkFrame h w f).channels = 3 := rfl
@[simp] theorem mkFrame_h (h w f) : (mkFrame h w f).h = h := rfl
@[simp] theorem mkFrame_w (h w f) : (mkFrame h w f).w = w := rfl
@[simp] theorem mkGray_channels (h w f) : (mkGray h w f).channels = 1 := rfl
@[simp] theorem mkGray_h (h w f) : (mkGray h w f).h = h := rfl
@[simp] theorem mkGray_w (h w f) : (mkGray h w f).w = w := rfl
@[simp] theorem mkGray_px (h w f c i j) : (mkGray h w f).px c i j = f i j := rfl

/-- `cv2.cvtColor(frame, cv2.COLOR_BGR2GRAY)`: BGR → luminance with the
OpenCV weights 0.114 B + 0.587 G + 0.299 R (uint8 rounding of the
fixed-point implementation abstracted to exact rationals). -/
def cvtColor (img : Img) : Img :=
  ⟨1, img.h, img.w,
    fun _ i j => (114 * img.px 0 i j + 587 * img.px 1 i j + 299 * img.px 2 i j) / 1000⟩

@[simp] theorem cvtColor_channels (a : Img) : (cvtColor a).channels = 1 := rfl
@[simp] theorem cvtColor_h (a : Img) : (cvtColor a).h = a.h := rfl
@[simp] theorem cvtColor_w (a : Img) : (cvtColor a).w = a.w := rfl

/-- On a frame whose three channels agree, the luminance transform is the
identity on the shared channel (the weights sum to 1). -/
theorem cvtColor_mkFrame (h w : Nat) (f : Nat → Nat → ℚ) :
    cvtColor (mkFrame h w f) = mkGray h w f := by
  unfold cvtColor mkFrame mkGray
  simp only [Img.mk.injEq, true_and]
  funext c i j
  ring

/-- `cv2.resize(img, (w', h'))`: the output has exactly the requested
dimensions; the interpolation kernel is abstracted to nearest-point
sampling (no claim depends on interpolated pixel values). -/
def resizeImg (img : Img) (w' h' : Nat) : Img :=
  ⟨img.channels, h', w', fun c i j => img.px c (i * img.h / h') (j * img.w / w')⟩

@[simp] theorem resizeImg_channels (a w' h') : (resizeImg a w' h').channels = a.channels := rfl
@[simp] theorem resizeImg_h (a w' h') : (resizeImg a w' h').h = h' := rfl
@[simp] theorem resizeImg_w (a w' h') : (resizeImg a w' h').w = w' := rfl

/-- `VideoProcessor._preprocess_frame`: downscale so the longest edge is at
most 1024, preserving aspect ratio (the float scale factor applied with
`int(...)` truncation is modelled as exact-rational scaling with floor);
frames already within bounds pass through unchanged. -/
def preprocess (frame : Img) : Img :=
  if 1024 < max frame.h frame.w then
    resizeImg frame (frame.w * 1024 / max frame.h frame.w) (frame.h * 1024 / max frame.h frame.w)
  else frame

theorem preprocess_small (f : Img) (hf : max f.h f.w ≤ 1024) : preprocess f = f := by
  unfold preprocess
  rw [if_neg (by omega)]

@[simp] theorem preprocess_channels (f : Img) : (preprocess f).channels = f.channels := by
  unfold preprocess
  by_cases hc : 1024 < max f.h f.w <;> simp [hc]

/-- Python-level failures that can escape the extraction loop. -/
inductive PyErr where
  | zeroDivision : PyErr
  | winSize : PyErr
  | dimMismatch : PyErr
deriving DecidableEq, Repr

deriving instance DecidableEq for Except

/-- SSIM stabilization constant `C1 = (0.01 * 255)^2`. -/
def ssimC1 : ℚ := 2601 / 400

/-- SSIM stabilization constant `C2 = (0.03 * 255)^2`. -/
def ssimC2 : ℚ := 23409 / 400

/-- The 7×7 window index set of skimage's default `win_size = 7`. -/
def win7 : Finset (Nat × Nat) := Finset.range 7 ×ˢ Finset.range 7

/-- Sum of a pixel function over the 7×7 window anchored at `(i, j)`. -/
def wsum (f : Nat → Nat → ℚ) (i j : Nat) : ℚ :=
  ∑ p in win7, f (i + p.1) (j + p.2)

/-- Grayscale pixel accessor (channel 0). -/
def pxg (img : Img) : Nat → Nat → ℚ := fun i j => img.px 0 i j

/-- Windowed mean `ux` at anchor `(i, j)`. -/
def uMean (a : Img) (i j : Nat) : ℚ := wsum (pxg a) i j / 49

/-- Windowed mean of the pointwise product `x·y` at anchor `(i, j)`. -/
def uProd (a b : Img) (i j : Nat) : ℚ :=
  wsum (fun x y => pxg a x y * pxg b x y) i j / 49

/-- Windowed sample variance `vx` (skimage's `cov_norm = NP/(NP-1)`). -/
def vVar (a : Img) (i j : Nat) : ℚ :=
  (49 / 48) * (uProd a a i j - uMean a i j ^ 2)

/-- Windowed sample covariance `vxy`. -/
def vCov (a b : Img) (i j : Nat) : ℚ :=
  (49 / 48) * (uProd a b i j - uMean a i j * uMean b i j)

/-- The local SSIM value of the window anchored at `(i, j)`. -/
def localS (a b : Img) (i j : Nat) : ℚ :=
  ((2 * uMean a i j * uMean b i j + ssimC1) * (2 * vCov a b i j + ssimC2)) /
    ((uMean a i j ^ 2 + uMean b i j ^ 2 + ssimC1) * (vVar a i j + vVar b i j + ssimC2))

/-- The mean SSIM: skimage computes the local map and averages it after
cropping `(win_size - 1)/2 = 3` pixels from each border, which equals the
mean of the local values over all fully interior 7×7 windows. -/
def ssimScore (a b : Img) : ℚ :=
  (∑ p in Finset.range (a.h - 6) ×ˢ Finset.range (a.w - 6), localS a b p.1 p.2) /
    (((a.h - 6) * (a.w - 6) : Nat) : ℚ)

/-- `skimage.metrics.structural_similarity` as called by
`SlideDetector._calculate_similarity`: raises on unequal dimensions
(`Input images must have the same dimensions`) and on images smaller than
the 7×7 window (`win_size exceeds image extent`); otherwise returns the
mean SSIM. -/
def ssimE (a b : Img) : Except PyErr ℚ :=
  if a.h = b.h ∧ a.w = b.w then
    if a.h < 7 ∨ a.w < 7 then .error .winSize else .ok (ssimScore a b)
  else .error .dimMismatch

/-- `is_new_slide`, per-slide preparation step 1: `existing_slide` is
converted to grayscale only when it has 3 channels (`len(shape) == 3`). -/
def grayOf (s : Img) : Img := if s.channels = 3 then cvtColor s else s

/-- `is_new_slide`, per-slide preparation step 2: the stored slide's
grayscale image is resized to the candidate's grayscale dimensions when
the shapes differ. -/
def matchSize (e g : Img) : Img :=
  if e.h = g.h ∧ e.w = g.w then e else resizeImg e g.w g.h

/-- The score `is_new_slide` computes for one stored slide: prepare the
slide (grayscale, dimension match against the candidate's grayscale
image `g`), then call the scorer. -/
def scoreAgainst (g s : Img) : Except PyErr ℚ :=
  ssimE g (matchSize (grayOf s) g)

/-- The comparison loop of `SlideDetector.is_new_slide`: score the
candidate's grayscale image `g` against each stored slide in order,
answering `false` at the first score strictly above `1.0 - threshold`
and `true` once every slide has been survived; scorer errors propagate. -/
def checkSlides (t : ℚ) (g : Img) : List Img → Except PyErr Bool
  | [] => .ok true
  | s :: rest =>
    match scoreAgainst g s with
    | .error e => .error e
    | .ok q => if 1 - t < q then .ok false else checkSlides t g rest

/-- `SlideDetector.is_new_slide`: an empty slide list always answers
`true`; otherwise the candidate is converted to grayscale and run through
the comparison loop. -/
def is_new_slide (t : ℚ) (frame : Img) (slides : List Img) : Except PyErr Bool :=
  if slides.isEmpty then .ok true else checkSlides t (cvtColor frame) slides

/-- The similarity score `is_new_slide` uses for candidate `frame`
against stored slide `s`. -/
def slideScore (frame s : Img) : Except PyErr ℚ :=
  scoreAgainst (cvtColor frame) s

/-- Decidable success test for `slideScore`. -/
def scoreOk (frame s : Img) : Bool :=
  match slideScore frame s with
  | .ok _ => true
  | .error _ => false

theorem is_new_slide_eq_checkSlides (t : ℚ) (f : Img) (S : List Img) :
    is_new_slide t f S = checkSlides t (cvtColor f) S := by
  cases S <;> simp [is_new_slide, checkSlides]

/-- State of the `extract_slides` frame loop, with ghost instrumentation:
`checked` records the indices submitted to the uniqueness check and
`decoded` counts successful `cap.read()` calls. -/
structure RunState where
  slides : List Img
  checked : List Nat
  cnt : Nat
  decoded : Nat
  err : Option PyErr

/-- The initial loop state (`unique_slides = []`, `frame_count = 0`). -/
def initState : RunState := ⟨[], [], 0, 0, none⟩

/-- The frame loop of `VideoProcessor.extract_slides`: read a frame,
evaluate `frame_count % frame_skip` (a `ZeroDivisionError` when
`frame_skip = 0`), preprocess and uniqueness-check sampled frames,
append accepted ones, and stop with the error recorded when a check
raises.  `frame_count` is incremented at the end of each iteration. -/
def runFrom (t : ℚ) (k : Nat) (st : RunState) : List Img → RunState
  | [] => st
  | f :: rest =>
    let st1 : RunState := { st with decoded := st.decoded + 1 }
    if k = 0 then { st1 with err := some .zeroDivision }
    else if st1.cnt % k = 0 then
      let pf := preprocess f
      let st2 : RunState := { st1 with checked := st1.checked ++ [st1.cnt] }
      match is_new_slide t pf st2.slides with
      | .error e => { st2 with err := some e }
      | .ok true =>
        runFrom t k { st2 with slides := st2.slides ++ [pf], cnt := st2.cnt + 1 } rest
      | .ok false => runFrom t k { st2 with cnt := st2.cnt + 1 } rest
    else runFrom t k { st1 with cnt := st1.cnt + 1 } rest

/-- Run the extraction loop on the decoded frame sequence of a video. -/
def runExtract (t : ℚ) (k : Nat) (frames : List Img) : RunState :=
  runFrom t k initState frames

/-- `VideoProcessor.extract_slides` on the decoded frame sequence: the
accumulated slide list on normal completion, the escaped Python exception
otherwise. -/
def extract_slides (t : ℚ) (k : Nat) (frames : List Img) : Except PyErr (List Img) :=
  match (runExtract t k frames).err with
  | some e => .error e
  | none => .ok (runExtract t k frames).slides

/-- Observable slide count of a run (errors kept as errors). -/
def slideCountE (t : ℚ) (k : Nat) (frames : List Img) : Except PyErr Nat :=
  (extract_slides t k frames).map List.length

-- Unfolding lemmas for the loop, one per control path.

theorem runFrom_nil (t k st) : runFrom t k st [] = st := rfl

theorem runFrom_zero (t st f rest) :
    runFrom t 0 st (f :: rest) =
      { st with decoded := st.decoded + 1, err := some .zeroDivision } := rfl

theorem runFrom_cons_skip (t k st f rest) (hk : k ≠ 0) (hmod : ¬ st.cnt % k = 0) :
    runFrom t k st (f :: rest) =
      runFrom t k { st with decoded := st.decoded + 1, cnt := st.cnt + 1 } rest := by
  simp [runFrom, hk, hmod]

theorem runFrom_cons_true (t k st f rest) (hk : k ≠ 0) (hmod : st.cnt % k = 0)
    (hnew : is_new_slide t (preprocess f) st.slides = .ok true) :
    runFrom t k st (f :: rest) =
      runFrom t k
        { st with slides := st.slides ++ [preprocess f],
                  checked := st.checked ++ [st.cnt],
                  cnt := st.cnt + 1, decoded := st.decoded + 1 } rest := by
  simp [runFrom, hk, hmod, hnew]

theorem runFrom_cons_false (t k st f rest) (hk : k ≠ 0) (hmod : st.cnt % k = 0)
    (hnew : is_new_slide t (preprocess f) st.slides = .ok false) :
    runFrom t k st (f :: rest) =
      runFrom t k
        { st with checked := st.checked ++ [st.cnt],
                  cnt := st.cnt + 1, decoded := st.decoded + 1 } rest := by
  simp [runFrom, hk, hmod, hnew]

theorem runFrom_cons_error (t k st f rest e) (hk : k ≠ 0) (hmod : st.cnt % k = 0)
    (hnew : is_new_slide t (preprocess f) st.slides = .error e) :
    runFrom t k st (f :: rest) =
      { st with checked := st.checked ++ [st.cnt],
                decoded := st.decoded + 1, err := some e } := by
  simp [runFrom, hk, hmod, hnew]

-- Characterizations of the comparison loop.

theorem checkSlides_cons_ok (t : ℚ) (g s : Img) (rest : List Img) (q : ℚ)
    (h : scoreAgainst g s = .ok q) :
    checkSlides t g (s :: rest) =
      if 1 - t < q then .ok false else checkSlides t g rest := by
  simp [checkSlides, h]

theorem checkSlides_cons_err (t : ℚ) (g s : Img) (rest : List Img) (e : PyErr)
    (h : scoreAgainst g s = .error e) :
    checkSlides t g (s :: rest) = .error e := by
  simp [checkSlides, h]

/-- The loop answers `true` exactly when every stored slide scored
successfully and no score exceeded the rejection bound. -/
theorem checkSlides_true_iff (t : ℚ) (g : Img) (S : List Img) :
    checkSlides t g S = .ok true ↔
      ∀ s ∈ S, ∃ q, scoreAgainst g s = .ok q ∧ q ≤ 1 - t := by
  induction S with
  | nil => simp [checkSlides]
  | cons s rest ih =>
    cases h : scoreAgainst g s with
    | error e =>
      rw [checkSlides_cons_err t g s rest e h]
      simp only [List.mem_cons]
      constructor
      · intro hc; exact absurd hc (by simp)
      · intro hall
        obtain ⟨q, hq, _⟩ := hall s (Or.inl rfl)
        rw [h] at hq; exact absurd hq (by simp)
    | ok q =>
      rw [checkSlides_cons_ok t g s rest q h]
      by_cases hlt : 1 - t < q
      · rw [if_pos hlt]
        simp only [List.mem_cons]
        constructor
        · intro hc; exact absurd hc (by simp)
        · intro hall
          obtain ⟨q', hq', hle⟩ := hall s (Or.inl rfl)
          rw [h] at hq'
          obtain rfl : q = q' := by injection hq'
          exact absurd hlt (not_lt.mpr hle)
      · rw [if_neg hlt]
        rw [ih]
        constructor
        · intro hall s' hs'
          rcases List.mem_cons.mp hs' with rfl | hmem
          · exact ⟨q, h, not_lt.mp hlt⟩
          · exact hall s' hmem
        · intro hall s' hs'
          exact hall s' (List.mem_cons_of_mem s hs')

/-- When every stored slide scores successfully, the loop answers `false`
exactly when some stored slide's score exceeds the rejection bound. -/
theorem checkSlides_false_iff (t : ℚ) (g : Img) (S : List Img)
    (hS : ∀ s ∈ S, ∃ q, scoreAgainst g s = .ok q) :
    checkSlides t g S = .ok false ↔
      ∃ s ∈ S, ∃ q, scoreAgainst g s = .ok q ∧ 1 - t < q := by
  induction S with
  | nil => simp [checkSlides]
  | cons s rest ih =>
    obtain ⟨q, hq⟩ := hS s (List.mem_cons_self s rest)
    rw [checkSlides_cons_ok t g s rest q hq]
    by_cases hlt : 1 - t < q
    · rw [if_pos hlt]
      simp only [true_iff]
      exact ⟨s, List.mem_cons_self s rest, q, hq, hlt⟩
    · rw [if_neg hlt]
      rw [ih (fun s' hs' => hS s' (List.mem_cons_of_mem s hs'))]
      constructor
      · rintro ⟨s', hs', hq'⟩
        exact ⟨s', List.mem_cons_of_mem s hs', hq'⟩
      · rintro ⟨s', hs', q', hq', hlt'⟩
        rcases List.mem_cons.mp hs' with rfl | hmem
        · rw [hq] at hq'
          obtain rfl : q = q' := by injection hq'
          exact absurd hlt' hlt
        · exact ⟨s', hmem, q', hq', hlt'⟩

/-- Short-circuit: as soon as one slide scores above the bound after all
earlier slides scored at most the bound, the loop answers `false`, whatever
comes later in the list (the tail is never examined). -/
theorem checkSlides_shortCircuit (t : ℚ) (g : Img) (S1 : List Img) (s : Img) (S2 : List Img)
    (h1 : ∀ s' ∈ S1, ∃ q, scoreAgainst g s' = .ok q ∧ q ≤ 1 - t)
    (h2 : ∃ q, scoreAgainst g s = .ok q ∧ 1 - t < q) :
    checkSlides t g (S1 ++ s :: S2) = .ok false := by
  induction S1 with
  | nil =>
    obtain ⟨q, hq, hlt⟩ := h2
    rw [List.nil_append, checkSlides_cons_ok t g s S2 q hq, if_pos hlt]
  | cons s' rest ih =>
    obtain ⟨q, hq, hle⟩ := h1 s' (List.mem_cons_self s' rest)
    rw [List.cons_append, checkSlides_cons_ok t g s' (rest ++ s :: S2) q hq,
      if_neg (not_lt.mpr hle)]
    exact ih (fun x hx => h1 x (List.mem_cons_of_mem s' hx))

/-- C1.  `is_new_slide` answers `true` on an empty slide set; on a
non-empty set whose comparisons all score successfully it answers `false`
exactly when some stored slide (grayscale, dimension-matched) scores
strictly above `1.0 - similarity_threshold` and `true` exactly when every
stored slide scores at most that bound; and it short-circuits, answering
`false` at the first offending slide irrespective of the slides after it. -/
theorem claim_C1_is_new_slide (t : ℚ) (f : Img) (S : List Img) :
    (S = [] → is_new_slide t f S = .ok true)
    ∧ ((∀ s ∈ S, scoreOk f s = true) →
        ((is_new_slide t f S = .ok false ↔
            ∃ s ∈ S, ∃ q, slideScore f s = .ok q ∧ 1 - t < q)
         ∧ (is_new_slide t f S = .ok true ↔
            ∀ s ∈ S, ∃ q, slideScore f s = .ok q ∧ q ≤ 1 - t)))
    ∧ (∀ S1 s S2, S = S1 ++ s :: S2 →
        (∀ s' ∈ S1, ∃ q, slideScore f s' = .ok q ∧ q ≤ 1 - t) →
        (∃ q, slideScore f s = .ok q ∧ 1 - t < q) →
        is_new_slide t f S = .ok false) := by
  refine ⟨fun hS => by simp [hS, is_new_slide], fun hok => ?_, ?_⟩
  · have hS : ∀ s ∈ S, ∃ q, scoreAgainst (cvtColor f) s = .ok q := by
      intro s hs
      have := hok s hs
      unfold scoreOk slideScore at this
      cases h : scoreAgainst (cvtColor f) s with
      | ok q => exact ⟨q, rfl⟩
      | error e => rw [h] at this; simp at this
    constructor
    · rw [is_new_slide_eq_checkSlides, checkSlides_false_iff t (cvtColor f) S hS]
      rfl
    · rw [is_new_slide_eq_checkSlides, checkSlides_true_iff t (cvtColor f) S]
      rfl
  · rintro S1 s S2 rfl h1 h2
    rw [is_new_slide_eq_checkSlides]
    exact checkSlides_shortCircuit t (cvtColor f) S1 s S2 h1 h2

theorem claim_C1_witness :
    is_new_slide (1/2) (solidFrame 7 7 5) [] = .ok true :=
  (claim_C1_is_new_slide (1/2) (solidFrame 7 7 5) []).1 rfl

-- Structural lemmas about the extraction loop.

/-- Slides are only appended: the starting slide list is a prefix of the
final one. -/
theorem runFrom_slides_isPrefix (t : ℚ) (k : Nat) :
    ∀ (frames : List Img) (st : RunState), st.slides <+: (runFrom t k st frames).slides := by
  intro frames
  induction frames with
  | nil => intro st; exact List.prefix_refl _
  | cons f rest ih =>
    intro st
    by_cases hk : k = 0
    · subst hk; rw [runFrom_zero]
    · by_cases hmod : st.cnt % k = 0
      · cases hnew : is_new_slide t (preprocess f) st.slides with
        | error e => rw [runFrom_cons_error t k st f rest e hk hmod hnew]
        | ok b =>
          cases b with
          | true =>
            rw [runFrom_cons_true t k st f rest hk hmod hnew]
            have h2 := ih { st with slides := st.slides ++ [preprocess f],
                                    checked := st.checked ++ [st.cnt],
                                    cnt := st.cnt + 1, decoded := st.decoded + 1 }
            exact List.IsPrefix.trans (List.prefix_append _ _) h2
          | false =>
            rw [runFrom_cons_false t k st f rest hk hmod hnew]
            exact ih { st with checked := st.checked ++ [st.cnt],
                               cnt := st.cnt + 1, decoded := st.decoded + 1 }
      · rw [runFrom_cons_skip t k st f rest hk hmod]
        exact ih { st with decoded := st.decoded + 1, cnt := st.cnt + 1 }

/-- Checked indices are only appended. -/
theorem runFrom_checked_isPrefix (t : ℚ) (k : Nat) :
    ∀ (frames : List Img) (st : RunState), st.checked <+: (runFrom t k st frames).checked := by
  intro frames
  induction frames with
  | nil => intro st; exact List.prefix_refl _
  | cons f rest ih =>
    intro st
    by_cases hk : k = 0
    · subst hk; rw [runFrom_zero]
    · by_cases hmod : st.cnt % k = 0
      · cases hnew : is_new_slide t (preprocess f) st.slides with
        | error e =>
          rw [runFrom_cons_error t k st f rest e hk hmod hnew]
          exact List.prefix_append _ _
        | ok b =>
          cases b with
          | true =>
            rw [runFrom_cons_true t k st f rest hk hmod hnew]
            have h2 := ih { st with slides := st.slides ++ [preprocess f],
                                    checked := st.checked ++ [st.cnt],
                                    cnt := st.cnt + 1, decoded := st.decoded + 1 }
            exact List.IsPrefix.trans (List.prefix_append _ _) h2
          | false =>
            rw [runFrom_cons_false t k st f rest hk hmod hnew]
            have h2 := ih { st with checked := st.checked ++ [st.cnt],
                                    cnt := st.cnt + 1, decoded := st.decoded + 1 }
            exact List.IsPrefix.trans (List.prefix_append _ _) h2
      · rw [runFrom_cons_skip t k st f rest hk hmod]
        exact ih { st with decoded := st.decoded + 1, cnt := st.cnt + 1 }

/-- With a positive stride, the checked indices of a run from a consistent
state are exactly the decoded indices that are multiples of the stride. -/
theorem runFrom_checked_eq (t : ℚ) (k : Nat) (hk : k ≠ 0) :
    ∀ (frames : List Img) (st : RunState), st.cnt = st.decoded →
      st.checked = (List.range st.decoded).filter (fun i => i % k = 0) →
      (runFrom t k st frames).checked =
        (List.range (runFrom t k st frames).decoded).filter (fun i => i % k = 0) := by
  intro frames
  induction frames with
  | nil => intro st _ hchk; exact hchk
  | cons f rest ih =>
    intro st hcnt hchk
    by_cases hmod : st.cnt % k = 0
    · have hstep : ∀ (st' : RunState), st'.checked = st.checked ++ [st.cnt] →
          st'.decoded = st.decoded + 1 →
          st'.checked = (List.range st'.decoded).filter (fun i => i % k = 0) := by
        intro st' h1 h2
        rw [h1, h2, List.range_succ, List.filter_append, hchk, hcnt]
        simp [hcnt ▸ hmod]
      cases hnew : is_new_slide t (preprocess f) st.slides with
      | error e =>
        rw [runFrom_cons_error t k st f rest e hk hmod hnew]
        exact hstep _ rfl rfl
      | ok b =>
        cases b with
        | true =>
          rw [runFrom_cons_true t k st f rest hk hmod hnew]
          exact ih _ (by simp [hcnt]) (hstep _ rfl rfl)
        | false =>
          rw [runFrom_cons_false t k st f rest hk hmod hnew]
          exact ih _ (by simp [hcnt]) (hstep _ rfl rfl)
    · rw [runFrom_cons_skip t k st f rest hk hmod]
      refine ih _ (by simp [hcnt]) ?_
      show st.checked = (List.range (st.decoded + 1)).filter (fun i => i % k = 0)
      rw [List.range_succ, List.filter_append, hchk]
      have : ¬ st.decoded % k = 0 := hcnt ▸ hmod
      simp [this]

/-- An error-free run decodes every frame of the video. -/
theorem runFrom_decoded_of_err_none (t : ℚ) (k : Nat) (hk : k ≠ 0) :
    ∀ (frames : List Img) (st : RunState),
      (runFrom t k st frames).err = none →
      (runFrom t k st frames).decoded = st.decoded + frames.length := by
  intro frames
  induction frames with
  | nil => intro st _; simp [runFrom_nil]
  | cons f rest ih =>
    intro st herr
    by_cases hmod : st.cnt % k = 0
    · cases hnew : is_new_slide t (preprocess f) st.slides with
      | error e =>
        rw [runFrom_cons_error t k st f rest e hk hmod hnew] at herr
        simp at herr
      | ok b =>
        cases b with
        | true =>
          rw [runFrom_cons_true t k st f rest hk hmod hnew] at herr ⊢
          rw [ih _ herr]
          simp [List.length_cons]
          omega
        | false =>
          rw [runFrom_cons_false t k st f rest hk hmod hnew] at herr ⊢
          rw [ih _ herr]
          simp [List.length_cons]
          omega
    · rw [runFrom_cons_skip t k st f rest hk hmod] at herr ⊢
      rw [ih _ herr]
      simp [List.length_cons]
      omega

/-- C3.  With stride `k ≥ 1`, the indices submitted to the uniqueness
check are exactly the decoded indices that are multiples of `k`; an
error-free run decodes the whole video; and the first decoded frame of a
non-empty video is always submitted. -/
theorem claim_C3_sampling (t : ℚ) (k : Nat) (v : List Img) (hk : 1 ≤ k) :
    (runExtract t k v).checked =
      (List.range (runExtract t k v).decoded).filter (fun i => i % k = 0)
    ∧ ((runExtract t k v).err = none → (runExtract t k v).decoded = v.length)
    ∧ (v ≠ [] → 0 ∈ (runExtract t k v).checked) := by
  have hk0 : k ≠ 0 := by omega
  refine ⟨?_, ?_, ?_⟩
  · exact runFrom_checked_eq t k hk0 v initState rfl rfl
  · intro herr
    have := runFrom_decoded_of_err_none t k hk0 v initState herr
    simpa [initState] using this
  · intro hv
    obtain ⟨f, rest, rfl⟩ := List.exists_cons_of_ne_nil hv
    have h0 : is_new_slide t (preprocess f) initState.slides = .ok true := by
      simp [is_new_slide, initState]
    have hstep := runFrom_cons_true t k initState f rest hk0 (by simp [initState]) h0
    rw [runExtract, hstep]
    have hpre := runFrom_checked_isPrefix t k rest
      { initState with slides := initState.slides ++ [preprocess f],
                       checked := initState.checked ++ [initState.cnt],
                       cnt := initState.cnt + 1, decoded := initState.decoded + 1 }
    obtain ⟨tl, heq⟩ := hpre
    rw [← heq]
    simp [initState]

theorem claim_C3_witness :
    (runExtract (7/10) 2 [solidFrame 11 11 6]).checked =
      (List.range (runExtract (7/10) 2 [solidFrame 11 11 6]).decoded).filter (fun i => i % 2 = 0)
    ∧ (runExtract (7/10) 2 [solidFrame 11 11 6]).decoded = 1
    ∧ 0 ∈ (runExtract (7/10) 2 [solidFrame 11 11 6]).checked := by
  have h := claim_C3_sampling (7/10) 2 [solidFrame 11 11 6] (by norm_num)
  refine ⟨h.1, h.2.1 ?_, h.2.2 (by simp)⟩
  rw [runExtract, runFrom_cons_true (7/10) 2 initState (solidFrame 11 11 6) []
    (by norm_num) (by simp [initState]) (by simp [is_new_slide, initState]), runFrom_nil]
  rfl

-- Concrete inputs for the configuration-contract claim.

/-- A 2×2 solid frame (single-frame videos never reach the scorer). -/
def cexW : Img := solidFrame 2 2 9

/-- A 3×3 solid frame. -/
def cexW2 : Img := solidFrame 3 3 1

/-- C2, counterexample.  `VideoProcessor` performs no configuration
validation: with `similarity_threshold = 1.5` or `0` (both outside
`(0, 1]`) the run completes normally and produces a slide, and with
`frame_skip = 0` the run fails with `ZeroDivisionError` only after the
first frame has been decoded — there is no `InvalidConfig` failure before
decoding. -/
theorem claim_C2_counterexample :
    slideCountE (3/2) 1 [cexW] = .ok 1
    ∧ slideCountE 0 1 [cexW] = .ok 1
    ∧ (runExtract (3/2) 0 [cexW]).err = some .zeroDivision
    ∧ (runExtract (3/2) 0 [cexW]).decoded = 1 := by
  have hrun : ∀ t : ℚ, runExtract t 1 [cexW] =
      { slides := [preprocess cexW], checked := [0], cnt := 1, decoded := 1, err := none } := by
    intro t
    rw [runExtract, runFrom_cons_true t 1 initState cexW [] one_ne_zero
      (by simp [initState]) (by simp [is_new_slide, initState]), runFrom_nil]
    rfl
  refine ⟨?_, ?_, ?_, ?_⟩
  · simp [slideCountE, extract_slides, hrun (3/2), Except.map]
  · simp [slideCountE, extract_slides, hrun 0, Except.map]
  · rw [runExtract, runFrom_zero]
  · rw [runExtract, runFrom_zero]
    rfl

/-- C2, amended.  There is no configuration validation at all: every
threshold value (inside or outside `(0, 1]`) is accepted and a one-frame
video yields its preprocessed frame as a slide under any threshold, while
`frame_skip = 0` makes the loop raise `ZeroDivisionError` at the first
sampling test, after one frame has already been decoded and before any
slide is accumulated. -/
theorem claim_C2_amended (t : ℚ) (f : Img) (v : List Img) :
    extract_slides t 1 [f] = .ok [preprocess f]
    ∧ (v ≠ [] → (runExtract t 0 v).err = some .zeroDivision
        ∧ (runExtract t 0 v).decoded = 1 ∧ (runExtract t 0 v).slides = []) := by
  constructor
  · have hrun : runExtract t 1 [f] =
        { slides := [preprocess f], checked := [0], cnt := 1, decoded := 1, err := none } := by
      rw [runExtract, runFrom_cons_true t 1 initState f [] one_ne_zero
        (by simp [initState]) (by simp [is_new_slide, initState]), runFrom_nil]
      rfl
    simp [extract_slides, hrun]
  · intro hv
    obtain ⟨f0, r, rfl⟩ := List.exists_cons_of_ne_nil hv
    rw [runExtract, runFrom_zero]
    exact ⟨rfl, rfl, rfl⟩

theorem claim_C2_amended_witness :
    extract_slides (5/2) 1 [cexW2] = .ok [preprocess cexW2]
    ∧ (runExtract (5/2) 0 [cexW2]).err = some .zeroDivision
    ∧ (runExtract (5/2) 0 [cexW2]).decoded = 1
    ∧ (runExtract (5/2) 0 [cexW2]).slides = [] := by
  have h := claim_C2_amended (5/2) cexW2 [cexW2]
  have h2 := h.2 (by simp)
  exact ⟨h.1, h2.1, h2.2.1, h2.2.2⟩

-- Counting sampled candidates.

theorem length_filter_mod (k : Nat) (hk : k ≠ 0) :
    ∀ n : Nat, ((List.range n).filter (fun i => i % k = 0)).length = (n + k - 1) / k := by
  intro n
  induction n with
  | zero => simp [Nat.div_eq_of_lt (by omega : k - 1 < k)]
  | succ n ih =>
    rw [List.range_succ, List.filter_append, List.length_append, ih]
    by_cases hmod : n % k = 0
    · obtain ⟨q, rfl⟩ : k ∣ n := Nat.dvd_iff_mod_eq_zero.mpr hmod
      have hfil : (List.filter (fun i => decide (i % k = 0)) [k * q]).length = 1 := by
        simp [List.filter, hmod]
      rw [hfil]
      have e1 : k * q + k - 1 = (k - 1) + q * k := by
        have : q * k = k * q := Nat.mul_comm q k
        omega
      have e2 : k * q + 1 + k - 1 = 0 + (q + 1) * k := by
        have : (q + 1) * k = k * q + k := by ring
        omega
      rw [e1, e2, Nat.add_mul_div_right _ _ (by omega : 0 < k),
        Nat.add_mul_div_right _ _ (by omega : 0 < k),
        Nat.div_eq_of_lt (by omega : k - 1 < k), Nat.zero_div]
      omega
    · have hfil : (List.filter (fun i => decide (i % k = 0)) [n]).length = 0 := by
        simp [List.filter, hmod]
      rw [hfil]
      have hd : k * (n / k) + n % k = n := Nat.div_add_mod n k
      have hr : n % k < k := Nat.mod_lt n (by omega)
      have hr1 : 1 ≤ n % k := by omega
      have e1 : n + k - 1 = (n % k - 1) + (n / k + 1) * k := by
        have : (n / k + 1) * k = k * (n / k) + k := by ring
        omega
      have e2 : n + 1 + k - 1 = n % k + (n / k + 1) * k := by
        have : (n / k + 1) * k = k * (n / k) + k := by ring
        omega
      rw [e1, e2, Nat.add_mul_div_right _ _ (by omega : 0 < k),
        Nat.add_mul_div_right _ _ (by omega : 0 < k),
        Nat.div_eq_of_lt (by omega : n % k - 1 < k), Nat.div_eq_of_lt hr]
      omega

/-- C4, amended.  For strides `1 ≤ k' ≤ k` and error-free runs, the denser
stride submits at least as many candidate frames to the uniqueness check;
the number of accepted slides, however, is not monotone in the stride
(see the counterexample). -/
theorem claim_C4_amended (t : ℚ) (k k' : Nat) (v : List Img) (hk' : 1 ≤ k') (hkk : k' ≤ k)
    (h1 : (runExtract t k' v).err = none) (h2 : (runExtract t k v).err = none) :
    ((runExtract t k v).checked).length ≤ ((runExtract t k' v).checked).length := by
  have hk0 : k ≠ 0 := by omega
  have hk'0 : k' ≠ 0 := by omega
  have e1 := runFrom_checked_eq t k hk0 v initState rfl rfl
  have e2 := runFrom_checked_eq t k' hk'0 v initState rfl rfl
  have d1 := runFrom_decoded_of_err_none t k hk0 v initState h2
  have d2 := runFrom_decoded_of_err_none t k' hk'0 v initState h1
  show ((runFrom t k initState v).checked).length ≤ ((runFrom t k' initState v).checked).length
  rw [e1, e2, d1, d2]
  simp only [initState, Nat.zero_add]
  rw [length_filter_mod k hk0, length_filter_mod k' hk'0]
  rcases Nat.eq_zero_or_pos v.length with h0 | hpos
  · rw [h0]
    rw [Nat.div_eq_of_lt (by omega : 0 + k - 1 < k), Nat.div_eq_of_lt (by omega : 0 + k' - 1 < k')]
  · have g1 : v.length + k - 1 = (v.length - 1) + 1 * k := by omega
    have g2 : v.length + k' - 1 = (v.length - 1) + 1 * k' := by omega
    rw [g1, g2, Nat.add_mul_div_right _ _ (by omega : 0 < k),
      Nat.add_mul_div_right _ _ (by omega : 0 < k')]
    have hdiv : (v.length - 1) / k ≤ (v.length - 1) / k' :=
      Nat.div_le_div_left hkk (by omega)
    omega

theorem claim_C4_amended_witness :
    ((runExtract (2/5) 2 [solidFrame 13 13 2]).checked).length ≤
      ((runExtract (2/5) 1 [solidFrame 13 13 2]).checked).length := by
  refine claim_C4_amended (2/5) 2 1 [solidFrame 13 13 2] (by norm_num) (by norm_num) ?_ ?_
  · rw [runExtract, runFrom_cons_true (2/5) 1 initState (solidFrame 13 13 2) []
      (by norm_num) (by simp [initState]) (by simp [is_new_slide, initState]), runFrom_nil]
    rfl
  · rw [runExtract, runFrom_cons_true (2/5) 2 initState (solidFrame 13 13 2) []
      (by norm_num) (by simp [initState]) (by simp [is_new_slide, initState]), runFrom_nil]
    rfl

-- Algebraic properties of the scorer.

theorem uProd_comm (a b : Img) (i j : Nat) : uProd a b i j = uProd b a i j := by
  unfold uProd wsum
  congr 1
  exact Finset.sum_congr rfl (fun p _ => mul_comm _ _)

theorem localS_comm (a b : Img) (i j : Nat) : localS a b i j = localS b a i j := by
  unfold localS vCov vVar
  rw [uProd_comm a b]
  ring

theorem win7_card : (win7.card : ℚ) = 49 := by
  simp [win7]

theorem vVar_nonneg (a : Img) (i j : Nat) : 0 ≤ vVar a i j := by
  have hcs : (∑ p in win7, pxg a (i + p.1) (j + p.2)) ^ 2 ≤
      (win7.card : ℚ) * ∑ p in win7, (pxg a (i + p.1) (j + p.2)) ^ 2 :=
    sq_sum_le_card_mul_sum_sq
  rw [win7_card] at hcs
  have hsq : ∑ p in win7, (pxg a (i + p.1) (j + p.2)) ^ 2 =
      ∑ p in win7, pxg a (i + p.1) (j + p.2) * pxg a (i + p.1) (j + p.2) :=
    Finset.sum_congr rfl (fun p _ => sq (pxg a (i + p.1) (j + p.2)))
  rw [hsq] at hcs
  unfold vVar uProd uMean wsum
  nlinarith [hcs]

theorem ssimC2_pos : 0 < ssimC2 := by norm_num [ssimC2]

theorem ssimC1_pos : 0 < ssimC1 := by norm_num [ssimC1]

theorem localS_self (a : Img) (i j : Nat) : localS a a i j = 1 := by
  have hv := vVar_nonneg a i j
  have hc1 := ssimC1_pos
  have hc2 := ssimC2_pos
  have hcov : vCov a a i j = vVar a i j := by
    unfold vCov vVar
    ring
  unfold localS
  rw [hcov]
  have hnum : (2 * uMean a i j * uMean a i j + ssimC1) * (2 * vVar a i j + ssimC2) =
      (uMean a i j ^ 2 + uMean a i j ^ 2 + ssimC1) * (vVar a i j + vVar a i j + ssimC2) := by
    ring
  rw [hnum]
  apply div_self
  have h1 : 0 < uMean a i j ^ 2 + uMean a i j ^ 2 + ssimC1 := by positivity
  have h2 : 0 < vVar a i j + vVar a i j + ssimC2 := by positivity
  positivity

theorem ssimScore_self (a : Img) (hh : 7 ≤ a.h) (hw : 7 ≤ a.w) : ssimScore a a = 1 := by
  unfold ssimScore
  have hsum : ∑ p in Finset.range (a.h - 6) ×ˢ Finset.range (a.w - 6), localS a a p.1 p.2 =
      (((a.h - 6) * (a.w - 6) : Nat) : ℚ) := by
    rw [Finset.sum_congr rfl (fun p _ => localS_self a p.1 p.2)]
    rw [Finset.sum_const]
    simp [mul_comm]
  rw [hsum]
  apply div_self
  exact Nat.cast_ne_zero.mpr (Nat.mul_ne_zero (by omega) (by omega))

/-- The scorer succeeds with value 1 on two copies of the same image of
size at least 7×7. -/
theorem ssimE_self (a : Img) (hh : 7 ≤ a.h) (hw : 7 ≤ a.w) : ssimE a a = .ok 1 := by
  unfold ssimE
  rw [if_pos ⟨rfl, rfl⟩, if_neg (by omega), ssimScore_self a hh hw]

/-- C9.  The similarity scorer is symmetric on equal-dimension
single-channel images (including the failure cases, which coincide). -/
theorem claim_C9_symmetry (a b : Img) (_hc : a.channels = 1) (_hc2 : b.channels = 1)
    (hh : a.h = b.h) (hw : a.w = b.w) : ssimE a b = ssimE b a := by
  have hscore : ssimScore a b = ssimScore b a := by
    unfold ssimScore
    rw [hh, hw]
    congr 1
    exact Finset.sum_congr rfl (fun p _ => localS_comm a b p.1 p.2)
  unfold ssimE
  rw [hscore, hh, hw]

theorem claim_C9_witness :
    ssimE (mkGray 7 7 (fun i j => i + 2 * j)) (mkGray 7 7 (fun i j => (i * j : Nat)))
      = ssimE (mkGray 7 7 (fun i j => (i * j : Nat))) (mkGray 7 7 (fun i j => i + 2 * j)) :=
  claim_C9_symmetry _ _ rfl rfl rfl rfl

-- Identical frames: the second and later sampled copies are rejected.

/-- A frame whose comparison against its own preprocessed copy scores 1
is rejected for any positive threshold. -/
theorem reject_self (t : ℚ) (ht : 0 < t) (pf : Img) (hch : pf.channels = 3)
    (hh : 7 ≤ pf.h) (hw : 7 ≤ pf.w) :
    is_new_slide t pf [pf] = .ok false := by
  rw [is_new_slide_eq_checkSlides]
  have hscore : scoreAgainst (cvtColor pf) pf = .ok 1 := by
    unfold scoreAgainst
    have hg : grayOf pf = cvtColor pf := by unfold grayOf; rw [if_pos hch]
    have hm : matchSize (cvtColor pf) (cvtColor pf) = cvtColor pf := by
      unfold matchSize; rw [if_pos ⟨rfl, rfl⟩]
    rw [hg, hm]
    exact ssimE_self (cvtColor pf) (by simpa using hh) (by simpa using hw)
  rw [checkSlides_cons_ok t (cvtColor pf) pf [] 1 hscore, if_pos (by linarith)]

theorem runFrom_replicate_self (t : ℚ) (k : Nat) (hk : k ≠ 0) (f : Img)
    (hrej : is_new_slide t (preprocess f) [preprocess f] = .ok false) :
    ∀ (m : Nat) (chk : List Nat) (c d : Nat),
      (runFrom t k ⟨[preprocess f], chk, c, d, none⟩ (List.replicate m f)).slides = [preprocess f]
      ∧ (runFrom t k ⟨[preprocess f], chk, c, d, none⟩ (List.replicate m f)).err = none := by
  intro m
  induction m with
  | zero => intro chk c d; exact ⟨rfl, rfl⟩
  | succ m ih =>
    intro chk c d
    rw [List.replicate_succ]
    by_cases hmod : c % k = 0
    · rw [runFrom_cons_false t k ⟨[preprocess f], chk, c, d, none⟩ f (List.replicate m f)
        hk hmod hrej]
      exact ih _ _ _
    · rw [runFrom_cons_skip t k ⟨[preprocess f], chk, c, d, none⟩ f (List.replicate m f)
        hk hmod]
      exact ih _ _ _

/-- C5, amended.  On a video of `n ≥ 1` identical decoded (BGR) frames
whose normalized image is at least 7×7 (the scorer's minimum window),
every valid configuration returns exactly one slide: the preprocessed
first frame.  (Smaller identical frames instead crash the scorer; see the
counterexample.) -/
theorem claim_C5_zero_motion (t : ℚ) (k n : Nat) (f : Img) (ht0 : 0 < t) (_ht1 : t ≤ 1)
    (hk : 1 ≤ k) (hn : 1 ≤ n) (hch : f.channels = 3)
    (hh : 7 ≤ (preprocess f).h) (hw : 7 ≤ (preprocess f).w) :
    extract_slides t k (List.replicate n f) = .ok [preprocess f] := by
  have hk0 : k ≠ 0 := by omega
  have hch' : (preprocess f).channels = 3 := by rw [preprocess_channels]; exact hch
  have hrej := reject_self t ht0 (preprocess f) hch' hh hw
  obtain ⟨m, rfl⟩ : ∃ m, n = m + 1 := ⟨n - 1, by omega⟩
  have hstate : runExtract t k (List.replicate (m + 1) f) =
      runFrom t k ⟨[preprocess f], [0], 1, 1, none⟩ (List.replicate m f) := by
    rw [List.replicate_succ, runExtract,
      runFrom_cons_true t k initState f (List.replicate m f) hk0
        (by simp [initState]) (by simp [is_new_slide, initState])]
    rfl
  obtain ⟨hs, he⟩ := runFrom_replicate_self t k hk0 f hrej m [0] 1 1
  rw [extract_slides, hstate]
  simp [he, hs]

/-- A 1×1 solid frame: below the scorer's 7×7 minimum window. -/
def cexTiny : Img := solidFrame 1 1 7

/-- C5, counterexample.  A two-frame zero-motion video of 1×1 frames, with
a valid threshold `1/2` and `frame_skip = 1`, does not return one slide:
the second sampled frame crashes the scorer (`win_size exceeds image
extent`) and the run raises instead of returning. -/
theorem claim_C5_counterexample :
    extract_slides (1/2) 1 (List.replicate 2 cexTiny) = .error .winSize
    ∧ ∀ L, extract_slides (1/2) 1 (List.replicate 2 cexTiny) ≠ .ok L := by
  have hpre : preprocess cexTiny = cexTiny := preprocess_small _ (by simp [cexTiny, solidFrame])
  have herr : is_new_slide (1/2) cexTiny [cexTiny] = .error .winSize := by
    rw [is_new_slide_eq_checkSlides]
    have hsc : scoreAgainst (cvtColor cexTiny) cexTiny = .error .winSize := by
      unfold scoreAgainst
      have hg : grayOf cexTiny = cvtColor cexTiny := by
        unfold grayOf
        rw [if_pos (show cexTiny.channels = 3 from rfl)]
      have hm : matchSize (cvtColor cexTiny) (cvtColor cexTiny) = cvtColor cexTiny := by
        unfold matchSize; rw [if_pos ⟨rfl, rfl⟩]
      rw [hg, hm]
      unfold ssimE
      rw [if_pos ⟨rfl, rfl⟩, if_pos (Or.inl (by norm_num [cexTiny, solidFrame]))]
    rw [checkSlides_cons_err _ _ _ _ _ hsc]
  have hrun : runExtract (1/2) 1 (List.replicate 2 cexTiny) =
      { slides := [preprocess cexTiny], checked := [0, 1], cnt := 1, decoded := 2,
        err := some .winSize } := by
    have h2 : List.replicate 2 cexTiny = cexTiny :: cexTiny :: [] := rfl
    rw [h2, runExtract,
      runFrom_cons_true (1/2) 1 initState cexTiny [cexTiny] one_ne_zero
        (by simp [initState]) (by simp [is_new_slide, initState])]
    have herr' : is_new_slide (1/2) (preprocess cexTiny) [preprocess cexTiny] = .error .winSize := by
      rw [hpre]; exact herr
    show runFrom (1/2) 1 ⟨[preprocess cexTiny], [0], 1, 1, none⟩ [cexTiny] =
      { slides := [preprocess cexTiny], checked := [0, 1], cnt := 1, decoded := 2,
        err := some .winSize }
    rw [runFrom_cons_error (1/2) 1 ⟨[preprocess cexTiny], [0], 1, 1, none⟩ cexTiny [] .winSize
      one_ne_zero (by norm_num) herr']
    rfl
  constructor
  · rw [extract_slides, hrun]
  · intro L
    rw [extract_slides, hrun]
    simp

theorem claim_C5_witness :
    extract_slides (1/2) 1 (List.replicate 1 (solidFrame 9 9 4)) =
      .ok [preprocess (solidFrame 9 9 4)] := by
  refine claim_C5_zero_motion (1/2) 1 1 (solidFrame 9 9 4) (by norm_num) (by norm_num)
    (by norm_num) (by norm_num) rfl ?_ ?_ <;>
    rw [preprocess_small _ (by simp [solidFrame])] <;> simp [solidFrame]

-- C7: degenerate candidate dimensions crash the scorer.

/-- A degenerate 1×1 candidate frame. -/
def cexDeg : Img := solidFrame 1 1 200

/-- A normal-size stored slide. -/
def cexStored : Img := solidFrame 8 8 100

/-- C7.  With one stored 8×8 slide and a 1×1 candidate, `is_new_slide`
resizes the stored slide's grayscale image to 1×1 and then crashes in the
scorer (`win_size exceeds image extent`): the comparison does not
complete, contradicting the no-crash requirement. -/
theorem claim_C7_degenerate_crash :
    is_new_slide (1/2) cexDeg [cexStored] = .error .winSize := by
  rw [is_new_slide_eq_checkSlides]
  have hsc : scoreAgainst (cvtColor cexDeg) cexStored = .error .winSize := by
    unfold scoreAgainst
    have hg : grayOf cexStored = cvtColor cexStored := by
      unfold grayOf
      rw [if_pos (show cexStored.channels = 3 from rfl)]
    have hm : matchSize (cvtColor cexStored) (cvtColor cexDeg) =
        resizeImg (cvtColor cexStored) (cvtColor cexDeg).w (cvtColor cexDeg).h := by
      unfold matchSize
      rw [if_neg (by simp [cexStored, cexDeg, solidFrame])]
    rw [hg, hm]
    unfold ssimE
    rw [if_pos (by simp [cexStored, cexDeg, solidFrame]),
      if_pos (Or.inl (by norm_num [cexDeg, solidFrame]))]
  rw [checkSlides_cons_err _ _ _ _ _ hsc]

-- C10: the first decoded frame is always accepted.

/-- C10, amended.  With `frame_skip ≥ 1` and at least one decoded frame,
the accumulated slide list is never empty and starts with the preprocessed
first frame; in particular whenever `extract_slides` returns (rather than
raising a scorer error on a later frame), the returned list is non-empty
with the preprocessed first frame at its head. -/
theorem claim_C10_first_frame (t : ℚ) (k : Nat) (f : Img) (rest : List Img) (hk : 1 ≤ k) :
    (runExtract t k (f :: rest)).slides.head? = some (preprocess f)
    ∧ (runExtract t k (f :: rest)).slides ≠ []
    ∧ (∀ L, extract_slides t k (f :: rest) = .ok L →
        L.head? = some (preprocess f) ∧ L ≠ []) := by
  have hk0 : k ≠ 0 := by omega
  have hstep := runFrom_cons_true t k initState f rest hk0
    (by simp [initState]) (by simp [is_new_slide, initState])
  have hpre := runFrom_slides_isPrefix t k rest
    { initState with slides := initState.slides ++ [preprocess f],
                     checked := initState.checked ++ [initState.cnt],
                     cnt := initState.cnt + 1, decoded := initState.decoded + 1 }
  obtain ⟨tl, heq⟩ := hpre
  have hhead : (runExtract t k (f :: rest)).slides.head? = some (preprocess f) := by
    rw [runExtract, hstep, ← heq]
    rfl
  refine ⟨hhead, ?_, ?_⟩
  · intro hnil
    rw [hnil] at hhead
    simp at hhead
  · intro L hL
    rw [extract_slides] at hL
    cases hcase : (runExtract t k (f :: rest)).err with
    | some e => rw [hcase] at hL; simp at hL
    | none =>
      rw [hcase] at hL
      simp only [Except.ok.injEq] at hL
      subst hL
      refine ⟨hhead, ?_⟩
      intro hnil
      rw [hnil] at hhead
      simp at hhead

/-- A 2×2 solid frame: below the scorer's 7×7 minimum window. -/
def cexT2 : Img := solidFrame 2 2 50

/-- C10, counterexample.  A two-frame video of 2×2 frames decodes at least
one frame, yet `extract_slides` does not return a non-empty list: the
second sampled frame crashes the scorer and the run raises instead of
returning. -/
theorem claim_C10_counterexample :
    extract_slides (2/3) 1 [cexT2, cexT2] = .error .winSize
    ∧ ∀ L, extract_slides (2/3) 1 [cexT2, cexT2] ≠ .ok L := by
  have hpre : preprocess cexT2 = cexT2 := preprocess_small _ (by simp [cexT2, solidFrame])
  have herr : is_new_slide (2/3) cexT2 [cexT2] = .error .winSize := by
    rw [is_new_slide_eq_checkSlides]
    have hsc : scoreAgainst (cvtColor cexT2) cexT2 = .error .winSize := by
      unfold scoreAgainst
      have hg : grayOf cexT2 = cvtColor cexT2 := by
        unfold grayOf
        rw [if_pos (show cexT2.channels = 3 from rfl)]
      have hm : matchSize (cvtColor cexT2) (cvtColor cexT2) = cvtColor cexT2 := by
        unfold matchSize; rw [if_pos ⟨rfl, rfl⟩]
      rw [hg, hm]
      unfold ssimE
      rw [if_pos ⟨rfl, rfl⟩, if_pos (Or.inl (by norm_num [cexT2, solidFrame]))]
    rw [checkSlides_cons_err _ _ _ _ _ hsc]
  have hrun : runExtract (2/3) 1 [cexT2, cexT2] =
      { slides := [preprocess cexT2], checked := [0, 1], cnt := 1, decoded := 2,
        err := some .winSize } := by
    rw [runExtract,
      runFrom_cons_true (2/3) 1 initState cexT2 [cexT2] one_ne_zero
        (by simp [initState]) (by simp [is_new_slide, initState])]
    have herr' : is_new_slide (2/3) (preprocess cexT2) [preprocess cexT2] = .error .winSize := by
      rw [hpre]; exact herr
    show runFrom (2/3) 1 ⟨[preprocess cexT2], [0], 1, 1, none⟩ [cexT2] =
      { slides := [preprocess cexT2], checked := [0, 1], cnt := 1, decoded := 2,
        err := some .winSize }
    rw [runFrom_cons_error (2/3) 1 ⟨[preprocess cexT2], [0], 1, 1, none⟩ cexT2 [] .winSize
      one_ne_zero (by norm_num) herr']
    rfl
  constructor
  · rw [extract_slides, hrun]
  · intro L
    rw [extract_slides, hrun]
    simp

theorem claim_C10_witness :
    (runExtract (3/4) 3 [solidFrame 10 10 1]).slides.head? =
      some (preprocess (solidFrame 10 10 1))
    ∧ (runExtract (3/4) 3 [solidFrame 10 10 1]).slides ≠ []
    ∧ (∀ L, extract_slides (3/4) 3 [solidFrame 10 10 1] = .ok L →
        L.head? = some (preprocess (solidFrame 10 10 1)) ∧ L ≠ []) :=
  claim_C10_first_frame (3/4) 3 (solidFrame 10 10 1) [] (by norm_num)

-- C8: the save path.

/-- `cv2.imwrite(output_path, slide)`: the filesystem is abstracted as an
oracle `fs` from paths to success flags; `imwrite` returns that flag (the
real function returns `False` on a failed write). -/
def imwrite (fs : String → Bool) (path : String) (_img : Img) : Bool := fs path

/-- `VideoProcessor.save_slide`: calls `cv2.imwrite` and returns `None`,
discarding the writer's success flag. -/
def save_slide (fs : String → Bool) (slide : Img) (output_path : String) : Unit :=
  let _ := imwrite fs output_path slide
  ()

/-- Zero-padded sequence naming of `main.process_video`
(`slide_001.jpg`, `slide_002.jpg`, ...). -/
def pad3 (n : Nat) : String :=
  if n < 10 then "00" ++ toString n
  else if n < 100 then "0" ++ toString n
  else toString n

/-- The output path of the `i`-th slide (0-based `i`, 1-based name). -/
def slideFileName (i : Nat) : String := "slide_" ++ pad3 (i + 1) ++ ".jpg"

/-- The save loop of `main.process_video`: one `save_slide` call per
extracted slide, in order. -/
def saveAllSlides (fs : String → Bool) (slides : List Img) : List Unit :=
  (List.range slides.length).map
    (fun i => save_slide fs (slides.getD i blankImg) (slideFileName i))

/-- A filesystem on which every write fails. -/
def failFS : String → Bool := fun _ => false

/-- A filesystem on which every write succeeds. -/
def okFS : String → Bool := fun _ => true

/-- An arbitrary slide image for the save-path counterexample. -/
def cexSaveImg : Img := solidFrame 4 4 2

/-- C8, counterexample.  A failed write (`imwrite` returns `false`) is
indistinguishable from a successful one in `save_slide`'s result: the
function reports nothing, so failure is not signalled per slide. -/
theorem claim_C8_counterexample :
    imwrite failFS (slideFileName 0) cexSaveImg = false
    ∧ save_slide failFS cexSaveImg (slideFileName 0) =
        save_slide okFS cexSaveImg (slideFileName 0) :=
  ⟨rfl, rfl⟩

/-- C8, amended.  `save_slide` always returns `None`, discarding the
writer's success flag, so no per-slide failure is reported; the save loop
nevertheless performs one write per slide whatever the filesystem does, so
a failed write aborts nothing. -/
theorem claim_C8_save_loop (fs : String → Bool) (slides : List Img) (s : Img) (p : String) :
    save_slide fs s p = () ∧ (saveAllSlides fs slides).length = slides.length := by
  refine ⟨rfl, ?_⟩
  simp [saveAllSlides]

-- C6: the admission-time invariant of the slide set.

/-- Every member of `L` was accepted by `is_new_slide` against exactly the
members present before it. -/
def SlideInv (t : ℚ) (L : List Img) : Prop :=
  ∀ i, i < L.length → is_new_slide t (L.getD i blankImg) (L.take i) = .ok true

theorem slideInv_nil (t : ℚ) : SlideInv t [] := by
  intro i h
  simp at h

theorem slideInv_append (t : ℚ) (L : List Img) (pf : Img) (hL : SlideInv t L)
    (hnew : is_new_slide t pf L = .ok true) : SlideInv t (L ++ [pf]) := by
  intro i hi
  rw [List.length_append, List.length_singleton] at hi
  rcases Nat.lt_or_ge i L.length with hlt | hge
  · have hgd : (L ++ [pf]).getD i blankImg = L.getD i blankImg := by
      rw [List.getD_eq_getElem?_getD, List.getD_eq_getElem?_getD,
        List.getElem?_append_left hlt]
    have htk : (L ++ [pf]).take i = L.take i := by
      rw [List.take_append_eq_append_take]
      simp [Nat.sub_eq_zero_of_le hlt.le]
    rw [hgd, htk]
    exact hL i hlt
  · have hieq : i = L.length := by omega
    subst hieq
    have hgd : (L ++ [pf]).getD L.length blankImg = pf := by
      rw [List.getD_eq_getElem?_getD, List.getElem?_append_right (le_refl _)]
      simp
    have htk : (L ++ [pf]).take L.length = L := List.take_left L [pf]
    rw [hgd, htk]
    exact hnew

theorem runFrom_slideInv (t : ℚ) (k : Nat) :
    ∀ (frames : List Img) (st : RunState),
      SlideInv t st.slides → SlideInv t (runFrom t k st frames).slides := by
  intro frames
  induction frames with
  | nil => intro st h; exact h
  | cons f rest ih =>
    intro st h
    by_cases hk : k = 0
    · subst hk; rw [runFrom_zero]; exact h
    · by_cases hmod : st.cnt % k = 0
      · cases hnew : is_new_slide t (preprocess f) st.slides with
        | error e => rw [runFrom_cons_error t k st f rest e hk hmod hnew]; exact h
        | ok b =>
          cases b with
          | true =>
            rw [runFrom_cons_true t k st f rest hk hmod hnew]
            exact ih { st with slides := st.slides ++ [preprocess f],
                               checked := st.checked ++ [st.cnt],
                               cnt := st.cnt + 1, decoded := st.decoded + 1 }
              (slideInv_append t st.slides (preprocess f) h hnew)
          | false =>
            rw [runFrom_cons_false t k st f rest hk hmod hnew]
            exact ih { st with checked := st.checked ++ [st.cnt],
                               cnt := st.cnt + 1, decoded := st.decoded + 1 } h
      · rw [runFrom_cons_skip t k st f rest hk hmod]
        exact ih { st with decoded := st.decoded + 1, cnt := st.cnt + 1 } h

/-- C6.  At every point of a run (every video prefix being a run of its
own), each accumulated slide was accepted, at the moment of its admission,
against exactly the slides already present; consequently each pair
`(i, j)` with `j < i` scored successfully at most `1 - threshold` at slide
`i`'s admission time.  Later re-comparison does not exist: the admission
condition refers only to the prefix before `i`. -/
theorem claim_C6_invariant (t : ℚ) (k : Nat) (v : List Img) :
    (∀ i, i < ((runExtract t k v).slides).length →
      is_new_slide t (((runExtract t k v).slides).getD i blankImg)
        (((runExtract t k v).slides).take i) = .ok true)
    ∧ (∀ i j, i < ((runExtract t k v).slides).length → j < i →
        ∃ q, slideScore (((runExtract t k v).slides).getD i blankImg)
            (((runExtract t k v).slides).getD j blankImg) = .ok q ∧ q ≤ 1 - t) := by
  have hinv : SlideInv t (runExtract t k v).slides :=
    runFrom_slideInv t k v initState (slideInv_nil t)
  refine ⟨hinv, ?_⟩
  intro i j hi hj
  have h1 := hinv i hi
  rw [is_new_slide_eq_checkSlides, checkSlides_true_iff] at h1
  have hjlen : j < ((runExtract t k v).slides).length := lt_trans hj hi
  have hmem : ((runExtract t k v).slides).getD j blankImg ∈ ((runExtract t k v).slides).take i := by
    have hsome : (((runExtract t k v).slides).take i)[j]? =
        some (((runExtract t k v).slides).getD j blankImg) := by
      rw [List.getElem?_take_of_lt hj, List.getElem?_eq_getElem hjlen,
        List.getD_eq_getElem?_getD, List.getElem?_eq_getElem hjlen]
      simp
    exact List.getElem?_mem hsome
  obtain ⟨q, hq, hle⟩ := h1 _ hmem
  exact ⟨q, hq, hle⟩

theorem claim_C6_witness :
    is_new_slide (1/3) (((runExtract (1/3) 1 [solidFrame 12 12 3]).slides).getD 0 blankImg)
      (((runExtract (1/3) 1 [solidFrame 12 12 3]).slides).take 0) = .ok true := by
  refine (claim_C6_invariant (1/3) 1 [solidFrame 12 12 3]).1 0 ?_
  rw [runExtract, runFrom_cons_true (1/3) 1 initState (solidFrame 12 12 3) [] one_ne_zero
    (by simp [initState]) (by simp [is_new_slide, initState]), runFrom_nil]
  simp [initState]

-- C4, counterexample data: five 7×7 frames for which a denser stride
-- yields strictly fewer slides.

/-- High-variance checkerboard base pattern. -/
def cexP (i j : Nat) : ℚ := if (i + j) % 2 = 0 then 192 else 64

/-- Zero-mean perturbation, uncorrelated with the checkerboard. -/
def cexD (_i j : Nat) : ℚ := if j < 3 then 48 else if j = 3 then 0 else -48

/-- Frame 0: solid black. -/
def cexF0 : Img := mkFrame 7 7 (fun _ _ => 0)

/-- Frames 1 and 3: the checkerboard. -/
def cexF1 : Img := mkFrame 7 7 (fun i j => cexP i j)

/-- Frame 2: checkerboard plus perturbation. -/
def cexF2 : Img := mkFrame 7 7 (fun i j => cexP i j + cexD i j)

/-- Frame 4: checkerboard minus perturbation. -/
def cexF4 : Img := mkFrame 7 7 (fun i j => cexP i j - cexD i j)

/-- The counterexample video. -/
def cexVideo : List Img := [cexF0, cexF1, cexF2, cexF1, cexF4]

def cexG0 : Img := mkGray 7 7 (fun _ _ => 0)
def cexG1 : Img := mkGray 7 7 (fun i j => cexP i j)
def cexG2 : Img := mkGray 7 7 (fun i j => cexP i j + cexD i j)
def cexG4 : Img := mkGray 7 7 (fun i j => cexP i j - cexD i j)

theorem cexSum0 : wsum (pxg cexG0) 0 0 = 0 := by
  norm_num [wsum, win7, Finset.sum_product, Finset.sum_range_succ, Finset.sum_range_zero,
    pxg, cexG0]

theorem cexSum1 : wsum (pxg cexG1) 0 0 = 6336 := by
  norm_num [wsum, win7, Finset.sum_product, Finset.sum_range_succ, Finset.sum_range_zero,
    pxg, cexG1, cexP]

theorem cexSum2 : wsum (pxg cexG2) 0 0 = 6336 := by
  norm_num [wsum, win7, Finset.sum_product, Finset.sum_range_succ, Finset.sum_range_zero,
    pxg, cexG2, cexP, cexD]

theorem cexSum4 : wsum (pxg cexG4) 0 0 = 6336 := by
  norm_num [wsum, win7, Finset.sum_product, Finset.sum_range_succ, Finset.sum_range_zero,
    pxg, cexG4, cexP, cexD]

theorem cexSq0 : wsum (fun x y => pxg cexG0 x y * pxg cexG0 x y) 0 0 = 0 := by
  norm_num [wsum, win7, Finset.sum_product, Finset.sum_range_succ, Finset.sum_range_zero,
    pxg, cexG0]

theorem cexSq1 : wsum (fun x y => pxg cexG1 x y * pxg cexG1 x y) 0 0 = 1019904 := by
  norm_num [wsum, win7, Finset.sum_product, Finset.sum_range_succ, Finset.sum_range_zero,
    pxg, cexG1, cexP]

theorem cexSq2 : wsum (fun x y => pxg cexG2 x y * pxg cexG2 x y) 0 0 = 1116672 := by
  norm_num [wsum, win7, Finset.sum_product, Finset.sum_range_succ, Finset.sum_range_zero,
    pxg, cexG2, cexP, cexD]

theorem cexSq4 : wsum (fun x y => pxg cexG4 x y * pxg cexG4 x y) 0 0 = 1116672 := by
  norm_num [wsum, win7, Finset.sum_product, Finset.sum_range_succ, Finset.sum_range_zero,
    pxg, cexG4, cexP, cexD]

theorem cexProd10 : wsum (fun x y => pxg cexG1 x y * pxg cexG0 x y) 0 0 = 0 := by
  norm_num [wsum, win7, Finset.sum_product, Finset.sum_range_succ, Finset.sum_range_zero,
    pxg, cexG0, cexG1, cexP]

theorem cexProd20 : wsum (fun x y => pxg cexG2 x y * pxg cexG0 x y) 0 0 = 0 := by
  norm_num [wsum, win7, Finset.sum_product, Finset.sum_range_succ, Finset.sum_range_zero,
    pxg, cexG0, cexG2, cexP, cexD]

theorem cexProd40 : wsum (fun x y => pxg cexG4 x y * pxg cexG0 x y) 0 0 = 0 := by
  norm_num [wsum, win7, Finset.sum_product, Finset.sum_range_succ, Finset.sum_range_zero,
    pxg, cexG0, cexG4, cexP, cexD]

theorem cexProd21 : wsum (fun x y => pxg cexG2 x y * pxg cexG1 x y) 0 0 = 1019904 := by
  norm_num [wsum, win7, Finset.sum_product, Finset.sum_range_succ, Finset.sum_range_zero,
    pxg, cexG1, cexG2, cexP, cexD]

theorem cexProd41 : wsum (fun x y => pxg cexG4 x y * pxg cexG1 x y) 0 0 = 1019904 := by
  norm_num [wsum, win7, Finset.sum_product, Finset.sum_range_succ, Finset.sum_range_zero,
    pxg, cexG1, cexG4, cexP, cexD]

theorem cexProd42 : wsum (fun x y => pxg cexG4 x y * pxg cexG2 x y) 0 0 = 923136 := by
  norm_num [wsum, win7, Finset.sum_product, Finset.sum_range_succ, Finset.sum_range_zero,
    pxg, cexG2, cexG4, cexP, cexD]

theorem cexL10 : localS cexG1 cexG0 0 0 = 795919132449/148267315838134049 := by
  unfold localS vVar vCov uMean uProd
  simp only [cexSum0, cexSum1, cexSq0, cexSq1, cexProd10]
  norm_num [ssimC1, ssimC2]

theorem cexL20 : localS cexG2 cexG0 0 0 = 795919132449/218795594449884449 := by
  unfold localS vVar vCov uMean uProd
  simp only [cexSum0, cexSum2, cexSq0, cexSq2, cexProd20]
  norm_num [ssimC1, ssimC2]

theorem cexL40 : localS cexG4 cexG0 0 0 = 795919132449/218795594449884449 := by
  unfold localS vVar vCov uMean uProd
  simp only [cexSum0, cexSum4, cexSq0, cexSq4, cexProd40]
  norm_num [ssimC1, ssimC2]

theorem cexL21 : localS cexG2 cexG1 0 0 = 164987041/204500641 := by
  unfold localS vVar vCov uMean uProd
  simp only [cexSum1, cexSum2, cexSq1, cexSq2, cexProd21]
  norm_num [ssimC1, ssimC2]

theorem cexL41 : localS cexG4 cexG1 0 0 = 164987041/204500641 := by
  unfold localS vVar vCov uMean uProd
  simp only [cexSum1, cexSum4, cexSq1, cexSq4, cexProd41]
  norm_num [ssimC1, ssimC2]

theorem cexL42 : localS cexG4 cexG2 0 0 = 85959841/244014241 := by
  unfold localS vVar vCov uMean uProd
  simp only [cexSum2, cexSum4, cexSq2, cexSq4, cexProd42]
  norm_num [ssimC1, ssimC2]

/-- On 7×7 images, the mean SSIM is the single window's local value. -/
theorem ssimE_seven (a b : Img) (ha : a.h = 7) (haw : a.w = 7) (hb : b.h = 7) (hbw : b.w = 7) :
    ssimE a b = .ok (localS a b 0 0) := by
  unfold ssimE
  rw [if_pos ⟨by rw [ha, hb], by rw [haw, hbw]⟩, if_neg (by omega)]
  unfold ssimScore
  rw [ha, haw]
  rw [show (7 - 6 : Nat) = 1 from rfl, Finset.sum_product, Finset.sum_range_one,
    Finset.sum_range_one]
  norm_num

/-- The score `is_new_slide` computes between two 7×7 equal-channel
frames: grayscale both, no resize, single-window SSIM. -/
theorem scoreAgainst_frames (fa fb : Nat → Nat → ℚ) :
    scoreAgainst (cvtColor (mkFrame 7 7 fa)) (mkFrame 7 7 fb) =
      .ok (localS (mkGray 7 7 fa) (mkGray 7 7 fb) 0 0) := by
  unfold scoreAgainst
  rw [cvtColor_mkFrame]
  have hg : grayOf (mkFrame 7 7 fb) = cvtColor (mkFrame 7 7 fb) := by
    unfold grayOf
    rw [if_pos (mkFrame_channels 7 7 fb)]
  rw [hg, cvtColor_mkFrame]
  have hm : matchSize (mkGray 7 7 fb) (mkGray 7 7 fa) = mkGray 7 7 fb := by
    unfold matchSize
    rw [if_pos ⟨rfl, rfl⟩]
  rw [hm]
  exact ssimE_seven _ _ rfl rfl rfl rfl

theorem cexSc10 : scoreAgainst (cvtColor cexF1) cexF0 = .ok (localS cexG1 cexG0 0 0) :=
  scoreAgainst_frames _ _

theorem cexSc11 : scoreAgainst (cvtColor cexF1) cexF1 = .ok (localS cexG1 cexG1 0 0) :=
  scoreAgainst_frames _ _

theorem cexSc20 : scoreAgainst (cvtColor cexF2) cexF0 = .ok (localS cexG2 cexG0 0 0) :=
  scoreAgainst_frames _ _

theorem cexSc21 : scoreAgainst (cvtColor cexF2) cexF1 = .ok (localS cexG2 cexG1 0 0) :=
  scoreAgainst_frames _ _

theorem cexSc40 : scoreAgainst (cvtColor cexF4) cexF0 = .ok (localS cexG4 cexG0 0 0) :=
  scoreAgainst_frames _ _

theorem cexSc41 : scoreAgainst (cvtColor cexF4) cexF1 = .ok (localS cexG4 cexG1 0 0) :=
  scoreAgainst_frames _ _

theorem cexSc42 : scoreAgainst (cvtColor cexF4) cexF2 = .ok (localS cexG4 cexG2 0 0) :=
  scoreAgainst_frames _ _

-- The six uniqueness decisions occurring in the two runs.

theorem cexN1 : is_new_slide (1/2) cexF1 [cexF0] = .ok true := by
  rw [is_new_slide_eq_checkSlides,
    checkSlides_cons_ok (1/2) (cvtColor cexF1) cexF0 [] _ cexSc10, cexL10,
    if_neg (by norm_num)]
  rfl

theorem cexN2r : is_new_slide (1/2) cexF2 [cexF0, cexF1] = .ok false := by
  rw [is_new_slide_eq_checkSlides,
    checkSlides_cons_ok (1/2) (cvtColor cexF2) cexF0 [cexF1] _ cexSc20, cexL20,
    if_neg (by norm_num),
    checkSlides_cons_ok (1/2) (cvtColor cexF2) cexF1 [] _ cexSc21, cexL21,
    if_pos (by norm_num)]

theorem cexN3r : is_new_slide (1/2) cexF1 [cexF0, cexF1] = .ok false := by
  rw [is_new_slide_eq_checkSlides,
    checkSlides_cons_ok (1/2) (cvtColor cexF1) cexF0 [cexF1] _ cexSc10, cexL10,
    if_neg (by norm_num),
    checkSlides_cons_ok (1/2) (cvtColor cexF1) cexF1 [] _ cexSc11, localS_self,
    if_pos (by norm_num)]

theorem cexN4r : is_new_slide (1/2) cexF4 [cexF0, cexF1] = .ok false := by
  rw [is_new_slide_eq_checkSlides,
    checkSlides_cons_ok (1/2) (cvtColor cexF4) cexF0 [cexF1] _ cexSc40, cexL40,
    if_neg (by norm_num),
    checkSlides_cons_ok (1/2) (cvtColor cexF4) cexF1 [] _ cexSc41, cexL41,
    if_pos (by norm_num)]

theorem cexN2a : is_new_slide (1/2) cexF2 [cexF0] = .ok true := by
  rw [is_new_slide_eq_checkSlides,
    checkSlides_cons_ok (1/2) (cvtColor cexF2) cexF0 [] _ cexSc20, cexL20,
    if_neg (by norm_num)]
  rfl

theorem cexN4a : is_new_slide (1/2) cexF4 [cexF0, cexF2] = .ok true := by
  rw [is_new_slide_eq_checkSlides,
    checkSlides_cons_ok (1/2) (cvtColor cexF4) cexF0 [cexF2] _ cexSc40, cexL40,
    if_neg (by norm_num),
    checkSlides_cons_ok (1/2) (cvtColor cexF4) cexF2 [] _ cexSc42, cexL42,
    if_neg (by norm_num)]
  rfl

theorem cexPP0 : preprocess cexF0 = cexF0 := preprocess_small _ (by simp [cexF0])
theorem cexPP1 : preprocess cexF1 = cexF1 := preprocess_small _ (by simp [cexF1])
theorem cexPP2 : preprocess cexF2 = cexF2 := preprocess_small _ (by simp [cexF2])
theorem cexPP4 : preprocess cexF4 = cexF4 := preprocess_small _ (by simp [cexF4])

theorem cexRun1 : runExtract (1/2) 1 cexVideo =
    ⟨[cexF0, cexF1], [0, 1, 2, 3, 4], 5, 5, none⟩ := by
  rw [show cexVideo = cexF0 :: [cexF1, cexF2, cexF1, cexF4] from rfl, runExtract,
    runFrom_cons_true (1/2) 1 initState cexF0 _ one_ne_zero (by decide)
      (by simp [is_new_slide, initState]), cexPP0]
  have e1 : runFrom (1/2) 1 ⟨[cexF0], [0], 1, 1, none⟩ [cexF1, cexF2, cexF1, cexF4] =
      runFrom (1/2) 1 ⟨[cexF0, cexF1], [0, 1], 2, 2, none⟩ [cexF2, cexF1, cexF4] := by
    rw [runFrom_cons_true (1/2) 1 ⟨[cexF0], [0], 1, 1, none⟩ cexF1 _ one_ne_zero (by decide)
      (by rw [cexPP1]; exact cexN1), cexPP1]
    rfl
  have e2 : runFrom (1/2) 1 ⟨[cexF0, cexF1], [0, 1], 2, 2, none⟩ [cexF2, cexF1, cexF4] =
      runFrom (1/2) 1 ⟨[cexF0, cexF1], [0, 1, 2], 3, 3, none⟩ [cexF1, cexF4] := by
    rw [runFrom_cons_false (1/2) 1 ⟨[cexF0, cexF1], [0, 1], 2, 2, none⟩ cexF2 _ one_ne_zero
      (by decide) (by rw [cexPP2]; exact cexN2r)]
    rfl
  have e3 : runFrom (1/2) 1 ⟨[cexF0, cexF1], [0, 1, 2], 3, 3, none⟩ [cexF1, cexF4] =
      runFrom (1/2) 1 ⟨[cexF0, cexF1], [0, 1, 2, 3], 4, 4, none⟩ [cexF4] := by
    rw [runFrom_cons_false (1/2) 1 ⟨[cexF0, cexF1], [0, 1, 2], 3, 3, none⟩ cexF1 _ one_ne_zero
      (by decide) (by rw [cexPP1]; exact cexN3r)]
    rfl
  have e4 : runFrom (1/2) 1 ⟨[cexF0, cexF1], [0, 1, 2, 3], 4, 4, none⟩ [cexF4] =
      ⟨[cexF0, cexF1], [0, 1, 2, 3, 4], 5, 5, none⟩ := by
    rw [runFrom_cons_false (1/2) 1 ⟨[cexF0, cexF1], [0, 1, 2, 3], 4, 4, none⟩ cexF4 _
      one_ne_zero (by decide) (by rw [cexPP4]; exact cexN4r), runFrom_nil]
    rfl
  show runFrom (1/2) 1 ⟨[cexF0], [0], 1, 1, none⟩ [cexF1, cexF2, cexF1, cexF4] =
    ⟨[cexF0, cexF1], [0, 1, 2, 3, 4], 5, 5, none⟩
  rw [e1, e2, e3, e4]

theorem cexRun2 : runExtract (1/2) 2 cexVideo =
    ⟨[cexF0, cexF2, cexF4], [0, 2, 4], 5, 5, none⟩ := by
  rw [show cexVideo = cexF0 :: [cexF1, cexF2, cexF1, cexF4] from rfl, runExtract,
    runFrom_cons_true (1/2) 2 initState cexF0 _ two_ne_zero (by decide)
      (by simp [is_new_slide, initState]), cexPP0]
  have e1 : runFrom (1/2) 2 ⟨[cexF0], [0], 1, 1, none⟩ [cexF1, cexF2, cexF1, cexF4] =
      runFrom (1/2) 2 ⟨[cexF0], [0], 2, 2, none⟩ [cexF2, cexF1, cexF4] := by
    rw [runFrom_cons_skip (1/2) 2 ⟨[cexF0], [0], 1, 1, none⟩ cexF1 _ two_ne_zero (by decide)]
  have e2 : runFrom (1/2) 2 ⟨[cexF0], [0], 2, 2, none⟩ [cexF2, cexF1, cexF4] =
      runFrom (1/2) 2 ⟨[cexF0, cexF2], [0, 2], 3, 3, none⟩ [cexF1, cexF4] := by
    rw [runFrom_cons_true (1/2) 2 ⟨[cexF0], [0], 2, 2, none⟩ cexF2 _ two_ne_zero (by decide)
      (by rw [cexPP2]; exact cexN2a), cexPP2]
    rfl
  have e3 : runFrom (1/2) 2 ⟨[cexF0, cexF2], [0, 2], 3, 3, none⟩ [cexF1, cexF4] =
      runFrom (1/2) 2 ⟨[cexF0, cexF2], [0, 2], 4, 4, none⟩ [cexF4] := by
    rw [runFrom_cons_skip (1/2) 2 ⟨[cexF0, cexF2], [0, 2], 3, 3, none⟩ cexF1 _ two_ne_zero
      (by decide)]
  have e4 : runFrom (1/2) 2 ⟨[cexF0, cexF2], [0, 2], 4, 4, none⟩ [cexF4] =
      ⟨[cexF0, cexF2, cexF4], [0, 2, 4], 5, 5, none⟩ := by
    rw [runFrom_cons_true (1/2) 2 ⟨[cexF0, cexF2], [0, 2], 4, 4, none⟩ cexF4 _ two_ne_zero
      (by decide) (by rw [cexPP4]; exact cexN4a), cexPP4, runFrom_nil]
    rfl
  show runFrom (1/2) 2 ⟨[cexF0], [0], 1, 1, none⟩ [cexF1, cexF2, cexF1, cexF4] =
    ⟨[cexF0, cexF2, cexF4], [0, 2, 4], 5, 5, none⟩
  rw [e1, e2, e3, e4]

/-- C4, counterexample.  On the five-frame video above, with threshold
`1/2`, the denser stride `k' = 1` produces 2 slides while the sparser
stride `k = 2` produces 3: the slide count is not monotone in the
sampling density. -/
theorem claim_C4_counterexample :
    slideCountE (1/2) 1 cexVideo = .ok 2 ∧ slideCountE (1/2) 2 cexVideo = .ok 3 := by
  constructor
  · rw [slideCountE, extract_slides, cexRun1]
    rfl
  · rw [slideCountE, extract_slides, cexRun2]
    rfl
